import Mathlib

/-!
Shallow embedding of the conversation-session and request-orchestration
engine of the `ollama_conversation` Home Assistant integration.

Source files embedded:
- `custom_components/ollama_conversation/api.py` — the HTTP client
  (`OllamaApiClient._api_wrapper`, `async_get_heartbeat`);
- `custom_components/ollama_conversation/agent.py` — the chat-mode
  `OllamaAgent.async_process` (message-list sessions);
- `custom_components/ollama_conversation/__init__.py` — the legacy-mode
  `OllamaAgent.async_process` (system/context/prompt sessions);
- `custom_components/ollama_conversation/helpers.py` — `get_exposed`;
- `custom_components/ollama_conversation/exceptions.py` and the exception
  classes of `api.py` — the two error taxonomies, embedded together with
  their class hierarchies.

Python mutable state is passed explicitly: the session store
(`self.history`, a dict) is an association list threaded through the turn
function.  Crucially, the Python code aliases the stored list/dict
(`messages = self.history[conversation_id]`) and then mutates it in place
(`messages.append(...)`, `messages["prompt"] = ...`); the embedding
reflects each in-place mutation of an aliased object as an update of the
store at that program point.  Exceptions are modelled with `Except`; an
exception that escapes `async_process` uncaught appears as an `.error`
result of the turn function.
-/

namespace OllamaConv

/-! ### Exception taxonomy

From `homeassistant.exceptions`: `TemplateError` and other
`HomeAssistantError` subclasses.  From `exceptions.py`: `ApiError`
derives from `HomeAssistantError`; `ApiClientError`, `ApiCommError`,
`ApiJsonError`, `ApiTimeoutError` derive from `ApiError`.  From `api.py`:
`OllamaApiClientError` derives from plain `Exception` (NOT from
`HomeAssistantError`); `OllamaApiClientCommunicationError` and
`OllamaApiClientAuthenticationError` derive from `OllamaApiClientError`.
`AttributeError` is the Python builtin. -/
inductive Exc where
  | templateError (msg : String)
  | homeAssistantError (msg : String)
  | apiError (msg : String)
  | apiClientError (msg : String)
  | apiCommError (msg : String)
  | apiJsonError (msg : String)
  | apiTimeoutError (msg : String)
  | ollamaClientError (msg : String)
  | ollamaCommError (msg : String)
  | ollamaAuthError (msg : String)
  | attributeError (msg : String)
deriving DecidableEq

/-- Membership in the `ApiError` class of `exceptions.py` (itself or any
of its subclasses), as decided by Python `isinstance`. -/
def Exc.isApiError : Exc → Bool
  | .apiError _ => true
  | .apiClientError _ => true
  | .apiCommError _ => true
  | .apiJsonError _ => true
  | .apiTimeoutError _ => true
  | _ => false

/-- Membership in `HomeAssistantError`: `TemplateError` and the whole
`ApiError` family derive from it; the `OllamaApiClientError` family and
`AttributeError` do not. -/
def Exc.isHomeAssistantError : Exc → Bool
  | .templateError _ => true
  | .homeAssistantError _ => true
  | .apiError _ => true
  | .apiClientError _ => true
  | .apiCommError _ => true
  | .apiJsonError _ => true
  | .apiTimeoutError _ => true
  | _ => false

/-- Membership in `TemplateError` (no subclasses). -/
def Exc.isTemplateError : Exc → Bool
  | .templateError _ => true
  | _ => false

/-- The exact tuple `(ApiCommError, ApiJsonError, ApiTimeoutError)` caught
by the legacy `async_process` in `__init__.py`. -/
def Exc.isLegacyCaught : Exc → Bool
  | .apiCommError _ => true
  | .apiJsonError _ => true
  | .apiTimeoutError _ => true
  | _ => false

/-- The message carried by the exception (its `str(...)` form). -/
def Exc.msg : Exc → String
  | .templateError m => m
  | .homeAssistantError m => m
  | .apiError m => m
  | .apiClientError m => m
  | .apiCommError m => m
  | .apiJsonError m => m
  | .apiTimeoutError m => m
  | .ollamaClientError m => m
  | .ollamaCommError m => m
  | .ollamaAuthError m => m
  | .attributeError m => m

/-! ### Session store

Python `dict` as an association list; `storeGet` is `d.get`/`in`,
`storeSet` is `d[k] = v`. -/

def storeGet {α : Type} : List (String × α) → String → Option α
  | [], _ => none
  | (k, v) :: rest, key => if k = key then some v else storeGet rest key

def storeSet {α : Type} : List (String × α) → String → α → List (String × α)
  | [], key, v => [(key, v)]
  | (k, w) :: rest, key, v =>
      if k = key then (key, v) :: rest else (k, w) :: storeSet rest key v

/-! ### Inference Client — `api.py`

`_api_wrapper` issues one HTTP request with `raise_for_status=True` under
`async_timeout.timeout(TIMEOUT)`.  The possible outcomes of the transport
are modelled by `HttpOutcome`: a timeout, a transport-level failure
(`aiohttp.ClientError` / `socket.gaierror` raised by the request itself),
or an HTTP response with a status and a body (`JsonBody` says how
`response.json()` would behave on it). -/

/-- How `await response.json()` would behave on this response's body:
it succeeds (`decodable`); or the content type is not JSON and aiohttp
raises `ContentTypeError`, a subclass of `ClientError`
(`wrongContentType`); or the content type is JSON but the body is
invalid and `json.loads` raises `json.JSONDecodeError`, a `ValueError`
that is NOT an `aiohttp.ClientError` (`malformed`). -/
inductive JsonBody where
  | decodable
  | wrongContentType
  | malformed
deriving DecidableEq

inductive HttpOutcome where
  | timeout
  | transportError
  | response (status : Nat) (body : String) (jsonBody : JsonBody)
deriving DecidableEq

/-- Exceptions that can be raised inside the `try` block of
`_api_wrapper` before its own `except` clauses classify them. -/
inductive PyExc where
  | asyncioTimeout
  | aiohttpClientError
  | ollamaAuthRaise
  | jsonDecodeRaise
deriving DecidableEq

/-- The body of `_api_wrapper`'s `try` block.  With
`raise_for_status=True`, `session.request` itself raises
`aiohttp.ClientResponseError` (a `ClientError`) for every response with
status >= 400, before control reaches the explicit
`if response.status in (401, 403)` check — which is therefore reachable
only for statuses below 400, i.e. never.  On a sub-400 response with
`decode_json`, `response.json()` either succeeds, raises
`ContentTypeError` (a `ClientError`), or raises `json.JSONDecodeError`
(not a `ClientError`). -/
def api_try (decode_json : Bool) (h : HttpOutcome) : Except PyExc String :=
  match h with
  | .timeout => .error .asyncioTimeout
  | .transportError => .error .aiohttpClientError
  | .response status body jsonBody =>
      if 400 ≤ status then .error .aiohttpClientError
      else if status = 401 ∨ status = 403 then .error .ollamaAuthRaise
      else if decode_json then
        match jsonBody with
        | .decodable => .ok body
        | .wrongContentType => .error .aiohttpClientError
        | .malformed => .error .jsonDecodeRaise
      else .ok body

/-- `OllamaApiClient._api_wrapper`: the `except` clauses.
`asyncio.TimeoutError` becomes `OllamaApiClientCommunicationError
("Timeout error fetching information")`; `aiohttp.ClientError` /
`socket.gaierror` become `OllamaApiClientCommunicationError("Error
fetching information")`; any other exception — a `json.JSONDecodeError`
from `response.json()`, or the `OllamaApiClientAuthenticationError`
raised inside the `try` block were it ever reached — is caught by the
broad `except Exception` and wrapped as
`OllamaApiClientError("Something really wrong happened!")`. -/
def api_wrapper (decode_json : Bool) (h : HttpOutcome) : Except Exc String :=
  match api_try decode_json h with
  | .ok v => .ok v
  | .error .asyncioTimeout => .error (.ollamaCommError "Timeout error fetching information")
  | .error .aiohttpClientError => .error (.ollamaCommError "Error fetching information")
  | .error .ollamaAuthRaise => .error (.ollamaClientError "Something really wrong happened!")
  | .error .jsonDecodeRaise => .error (.ollamaClientError "Something really wrong happened!")

/-- `OllamaApiClient.async_get_heartbeat`: GET the server root with
`decode_json=False` and compare the text body against the exact banner. -/
def async_get_heartbeat (h : HttpOutcome) : Except Exc Bool :=
  (api_wrapper false h).map (fun t => t == "Ollama is running")

/-! ### Conversation results -/

/-- `intent.IntentResponse` after the agent has either
`async_set_error`-ed it (response_type ERROR) or `async_set_speech`-ed
it. -/
inductive IntentResp where
  | errorResp (message : String)
  | speechResp (text : String)
deriving DecidableEq

/-- `conversation.ConversationResult`. -/
structure ConversationResult where
  response : IntentResp
  conversation_id : Option String
deriving DecidableEq

/-- `conversation.ConversationInput`: the fields `async_process` reads. -/
structure ConversationInput where
  text : String
  conversation_id : Option String
  language : String
deriving DecidableEq

/-- One chat message `{"role": ..., "content": ...}`. -/
structure Message where
  role : String
  content : String
deriving DecidableEq

/-! ### Built-in intent fallback — `agent.py`, `_call_builtin_agent` -/

/-- `OllamaAgent._call_builtin_agent`.  `recognize` is the intent name
from `agent.async_recognize` (`none` when nothing was recognized);
`builtinResult` is what the default agent's `async_process` produced.
The speech text of an error-type response is the empty string (the
`speech` dict is empty then, and `.get` defaults apply). -/
def callBuiltinAgent (input : ConversationInput) (recognize : Option String)
    (builtinResult : ConversationResult) : Option ConversationResult :=
  match recognize with
  | none => none
  | some intentName =>
      let result : ConversationResult :=
        { builtinResult with conversation_id := input.conversation_id }
      let content : String :=
        match result.response with
        | .speechResp t => t
        | .errorResp _ => ""
      let isErr : Bool :=
        match result.response with
        | .errorResp _ => true
        | .speechResp _ => false
      if intentName = "HassGetState" ∧ (content = "Not any" ∨ isErr = true) then none
      else some result

/-! ### Chat-mode orchestrator — `agent.py`, `OllamaAgent.async_process`

Inputs that the Python code obtains from collaborators are passed as
parameters: `newId` is the `ulid.ulid()` that would be minted, `render`
is the outcome of `self._async_generate_prompt(user_input)` (a rendered
string or a raised exception), and `llm` is the outcome of
`self._call_llm(messages)` when it is invoked.  The trace records the
final session store, whether the renderer and the client were invoked,
and the message payload handed to the client. -/

deriving instance DecidableEq for Except

structure ChatTrace where
  result : Except Exc ConversationResult
  history : List (String × List Message)
  renderCalled : Bool
  llmCalled : Bool
  llmPayload : Option (List Message)
deriving DecidableEq

def chatAsyncProcess (useBuiltin : Bool) (recognize : Option String)
    (builtinResult : ConversationResult)
    (history : List (String × List Message))
    (input : ConversationInput) (newId : String)
    (render : Except Exc String) (llm : Except Exc String) : ChatTrace :=
  match (if useBuiltin then callBuiltinAgent input recognize builtinResult else none) with
  | some r =>
      { result := .ok r, history := history,
        renderCalled := false, llmCalled := false, llmPayload := none }
  | none =>
      match (match input.conversation_id with
             | some cid => (storeGet history cid).map (fun ms => (cid, ms))
             | none => none) with
      | some (cid, stored) =>
          -- `messages = self.history[conversation_id]` aliases the stored
          -- list; `messages.append({user})` mutates it inside the store.
          let payload := stored ++ [⟨"user", input.text⟩]
          let history₁ := storeSet history cid payload
          (match llm with
           | .error e =>
               if e.isApiError then
                 { result := .ok ⟨.errorResp "Something went wrong, please check the logs for more information.", some cid⟩,
                   history := history₁, renderCalled := false,
                   llmCalled := true, llmPayload := some payload }
               else if e.isHomeAssistantError then
                 { result := .ok ⟨.errorResp "Something went wrong, please check the logs for more information.", some cid⟩,
                   history := history₁, renderCalled := false,
                   llmCalled := true, llmPayload := some payload }
               else
                 { result := .error e, history := history₁, renderCalled := false,
                   llmCalled := true, llmPayload := some payload }
           | .ok reply =>
               { result := .ok ⟨.speechResp reply, some cid⟩,
                 history := storeSet history₁ cid (payload ++ [⟨"assistant", reply⟩]),
                 renderCalled := false, llmCalled := true, llmPayload := some payload })
      | none =>
          -- `user_input.conversation_id = conversation_id = ulid.ulid()`
          let cid := newId
          (match render with
           | .error e =>
               if e.isTemplateError then
                 { result := .ok ⟨.errorResp "I had a problem with my system prompt, please check the logs for more information.", some cid⟩,
                   history := history, renderCalled := true,
                   llmCalled := false, llmPayload := none }
               else
                 -- only `except TemplateError` guards the render; any other
                 -- exception escapes `async_process` uncaught
                 { result := .error e, history := history, renderCalled := true,
                   llmCalled := false, llmPayload := none }
           | .ok system_prompt =>
               -- note the source stores the rendered system prompt with
               -- role "user": messages = [{"role": "user", "content": system_prompt}]
               let payload := [⟨"user", system_prompt⟩, ⟨"user", input.text⟩]
               (match llm with
                | .error e =>
                    if e.isApiError then
                      { result := .ok ⟨.errorResp "Something went wrong, please check the logs for more information.", some cid⟩,
                        history := history, renderCalled := true,
                        llmCalled := true, llmPayload := some payload }
                    else if e.isHomeAssistantError then
                      { result := .ok ⟨.errorResp "Something went wrong, please check the logs for more information.", some cid⟩,
                        history := history, renderCalled := true,
                        llmCalled := true, llmPayload := some payload }
                    else
                      { result := .error e, history := history, renderCalled := true,
                        llmCalled := true, llmPayload := some payload }
                | .ok reply =>
                    { result := .ok ⟨.speechResp reply, some cid⟩,
                      history := storeSet history cid (payload ++ [⟨"assistant", reply⟩]),
                      renderCalled := true, llmCalled := true, llmPayload := some payload }))

/-! ### Legacy-mode orchestrator — `__init__.py`, `OllamaAgent.async_process`

Sessions are dicts `{"system": ..., "context": ..., "prompt": ...}`.  A
new session is created as `{"system": system_prompt, "context": None}`;
the `prompt` key is set on every turn, before the model call.  `query`
POSTs to `/api/generate` and on success the server's `context` token is
stored. -/

structure LegacySession where
  system : String
  context : Option String
  prompt : Option String
deriving DecidableEq

/-- The fields of the `/api/generate` response the legacy agent reads. -/
structure LegacyResponse where
  response : String
  context : String
deriving DecidableEq

structure LegacyTrace where
  result : Except Exc ConversationResult
  history : List (String × LegacySession)
  renderCalled : Bool
  llmCalled : Bool
deriving DecidableEq

def legacyAsyncProcess (history : List (String × LegacySession))
    (input : ConversationInput) (newId : String)
    (render : Except Exc String) (query : Except Exc LegacyResponse) : LegacyTrace :=
  match (match input.conversation_id with
         | some cid => (storeGet history cid).map (fun s => (cid, s))
         | none => none) with
  | some (cid, stored) =>
      -- `messages = self.history[conversation_id]` aliases the stored
      -- dict; `messages["prompt"] = user_input.text` mutates it in place.
      let messages := { stored with prompt := some input.text }
      let history₁ := storeSet history cid messages
      (match query with
       | .error e =>
           if e.isLegacyCaught then
             { result := .ok ⟨.errorResp ("Something went wrong, " ++ e.msg), some cid⟩,
               history := history₁, renderCalled := false, llmCalled := true }
           else if e.isHomeAssistantError then
             { result := .ok ⟨.errorResp "Something went wrong, please check the logs for more information.", some cid⟩,
               history := history₁, renderCalled := false, llmCalled := true }
           else
             { result := .error e, history := history₁,
               renderCalled := false, llmCalled := true }
       | .ok resp =>
           let messages₂ := { messages with context := some resp.context }
           { result := .ok ⟨.speechResp resp.response, some cid⟩,
             history := storeSet history₁ cid messages₂,
             renderCalled := false, llmCalled := true })
  | none =>
      let cid := newId
      (match render with
       | .error e =>
           if e.isTemplateError then
             { result := .ok ⟨.errorResp "I had a problem with my system prompt, please check the logs for more information.", some cid⟩,
               history := history, renderCalled := true, llmCalled := false }
           else
             { result := .error e, history := history,
               renderCalled := true, llmCalled := false }
       | .ok system_prompt =>
           let messages : LegacySession :=
             { system := system_prompt, context := none, prompt := some input.text }
           (match query with
            | .error e =>
                if e.isLegacyCaught then
                  { result := .ok ⟨.errorResp ("Something went wrong, " ++ e.msg), some cid⟩,
                    history := history, renderCalled := true, llmCalled := true }
                else if e.isHomeAssistantError then
                  { result := .ok ⟨.errorResp "Something went wrong, please check the logs for more information.", some cid⟩,
                    history := history, renderCalled := true, llmCalled := true }
                else
                  { result := .error e, history := history,
                    renderCalled := true, llmCalled := true }
            | .ok resp =>
                { result := .ok ⟨.speechResp resp.response, some cid⟩,
                  history := storeSet history cid { messages with context := some resp.context },
                  renderCalled := true, llmCalled := true }))

/-! ### Exposed entities — `helpers.py`, `get_exposed` -/

/-- A Home Assistant state object (the fields `get_exposed` reads). -/
structure HAState where
  entity_id : String
  name : String
  state : String
deriving DecidableEq

/-- An entity-registry entry (as returned by
`entity_registry.async_get(hass).async_get(entity_id)`). -/
structure RegistryEntry where
  area_id : Option String
  aliases : List String
deriving DecidableEq

/-- One element of the per-area lists built by `get_exposed`. -/
structure ExposedEntity where
  id : String
  name : String
  state : String
  aliases : List String
deriving DecidableEq

/-- `exposed_entities[area] = exposed_entities.get(area, []); ...append(entry)`. -/
def groupAdd (acc : List (String × List ExposedEntity)) (area : String)
    (e : ExposedEntity) : List (String × List ExposedEntity) :=
  match storeGet acc area with
  | some l => storeSet acc area (l ++ [e])
  | none => storeSet acc area [e]

/-- The loop of `get_exposed`.  For each exposed state the registry is
queried; when the lookup returns `None`, the very next line
`area = entity.area_id or 'none'` raises
`AttributeError` — the later `entity.aliases if entity else []` guard is
never reached.  Python `or` also maps an empty or missing `area_id` to
the literal area `"none"`. -/
def get_exposed_go (shouldExpose : String → Bool)
    (registry : String → Option RegistryEntry) :
    List HAState → List (String × List ExposedEntity) →
    Except Exc (List (String × List ExposedEntity))
  | [], acc => .ok acc
  | s :: rest, acc =>
      if shouldExpose s.entity_id then
        match registry s.entity_id with
        | none => .error (.attributeError "NoneType object has no attribute area_id")
        | some entity =>
            let area :=
              match entity.area_id with
              | some a => if a = "" then "none" else a
              | none => "none"
            get_exposed_go shouldExpose registry rest
              (groupAdd acc area ⟨s.entity_id, s.name, s.state, entity.aliases⟩)
      else get_exposed_go shouldExpose registry rest acc

/-- `dict(sorted(exposed_entities.items()))`: sort the area keys. -/
def insertSorted (p : String × List ExposedEntity) :
    List (String × List ExposedEntity) → List (String × List ExposedEntity)
  | [] => [p]
  | q :: rest =>
      if (compare p.1 q.1).isLE then p :: q :: rest else q :: insertSorted p rest

def sortByKey : List (String × List ExposedEntity) → List (String × List ExposedEntity)
  | [] => []
  | p :: rest => insertSorted p (sortByKey rest)

/-- `helpers.get_exposed`: group the exposed entity states by area, or
raise `AttributeError` on the first exposed state with no registry
entry. -/
def get_exposed (states : List HAState) (shouldExpose : String → Bool)
    (registry : String → Option RegistryEntry) :
    Except Exc (List (String × List ExposedEntity)) :=
  (get_exposed_go shouldExpose registry states []).map sortByKey

/-! ## Claim theorems -/

/-- Store lemma: writing a key makes it readable back (Python dict
assignment semantics). -/
theorem storeGet_storeSet_same {α : Type} (s : List (String × α)) (k : String) (v : α) :
    storeGet (storeSet s k v) k = some v := by
  induction s with
  | nil => simp [storeSet, storeGet]
  | cons p rest ih =>
      by_cases h : p.1 = k
      · simp [storeSet, storeGet, h]
      · simp [storeSet, storeGet, h, ih]

/-- C1: refutation by evaluation.  The claim says that for a conversation
id already present in the session store, a turn whose model call fails
with a typed API error leaves the store entry unchanged.  In fact the
working message list (chat mode) and session dict (legacy mode) alias the
stored object and are mutated in place before the model call, so after
the failed turn the store shows the appended user message (chat) and the
overwritten prompt field (legacy). -/
theorem c1_failed_turn_mutates_store :
    ((chatAsyncProcess false none ⟨.speechResp "", none⟩
        [("C", [⟨"user", "SYS"⟩, ⟨"user", "hello"⟩, ⟨"assistant", "hi there"⟩])]
        ⟨"again", some "C", "en"⟩ "NEW" (.ok "SYS")
        (.error (.apiCommError "connection refused"))).result
      = .ok ⟨.errorResp "Something went wrong, please check the logs for more information.", some "C"⟩)
    ∧ ((chatAsyncProcess false none ⟨.speechResp "", none⟩
        [("C", [⟨"user", "SYS"⟩, ⟨"user", "hello"⟩, ⟨"assistant", "hi there"⟩])]
        ⟨"again", some "C", "en"⟩ "NEW" (.ok "SYS")
        (.error (.apiCommError "connection refused"))).history
      = [("C", [⟨"user", "SYS"⟩, ⟨"user", "hello"⟩, ⟨"assistant", "hi there"⟩, ⟨"user", "again"⟩])])
    ∧ ((chatAsyncProcess false none ⟨.speechResp "", none⟩
        [("C", [⟨"user", "SYS"⟩, ⟨"user", "hello"⟩, ⟨"assistant", "hi there"⟩])]
        ⟨"again", some "C", "en"⟩ "NEW" (.ok "SYS")
        (.error (.apiCommError "connection refused"))).history
      ≠ [("C", [⟨"user", "SYS"⟩, ⟨"user", "hello"⟩, ⟨"assistant", "hi there"⟩])])
    ∧ ((legacyAsyncProcess [("C", ⟨"SYS", some "ctx", some "hello"⟩)]
        ⟨"again", some "C", "en"⟩ "NEW" (.ok "SYS")
        (.error (.apiCommError "connection refused"))).history
      = [("C", ⟨"SYS", some "ctx", some "again"⟩)]) := by
  decide

/-- C2: refutation by evaluation.  The claim says every typed error
raised by the Inference Client is caught inside `async_process`.  The
client bundled in `api.py` raises the `OllamaApiClientError` family,
which derives from plain `Exception`, while `async_process` catches only
`ApiError` (from `exceptions.py`) and `HomeAssistantError`; a
`OllamaApiClientCommunicationError` raised by the model call therefore
escapes `async_process` uncaught. -/
theorem c2_client_error_escapes_async_process :
    api_wrapper true .transportError = .error (.ollamaCommError "Error fetching information")
    ∧ (Exc.ollamaCommError "Error fetching information").isApiError = false
    ∧ (Exc.ollamaCommError "Error fetching information").isHomeAssistantError = false
    ∧ (chatAsyncProcess false none ⟨.speechResp "", none⟩
        [("C", [⟨"user", "SYS"⟩])] ⟨"hi", some "C", "en"⟩ "NEW" (.ok "SYS")
        (.error (.ollamaCommError "Error fetching information"))).result
      = .error (.ollamaCommError "Error fetching information") := by
  decide

/-- C3: counterexample.  An HTTP 404 response with a JSON body carrying
an `error` field does not yield a dedicated JSON-error class: it yields
exactly the same `OllamaApiClientCommunicationError` as a generic
transport failure (the `raise_for_status=True` request raises before any
body inspection).  Likewise HTTP 401 yields that communication error
rather than the authentication class, and a timeout yields the same
communication class (only the message differs), not a distinct timeout
class. -/
theorem c3_counterexample :
    api_wrapper true (.response 404 "\x7b\"error\":\"model not found\"\x7d" .decodable)
      = .error (.ollamaCommError "Error fetching information")
    ∧ api_wrapper true (.response 404 "\x7b\"error\":\"model not found\"\x7d" .decodable)
      = api_wrapper true .transportError
    ∧ api_wrapper true (.response 401 "" .decodable)
      = .error (.ollamaCommError "Error fetching information")
    ∧ api_wrapper true (.response 403 "" .decodable)
      = .error (.ollamaCommError "Error fetching information")
    ∧ api_wrapper true .timeout
      = .error (.ollamaCommError "Timeout error fetching information") := by
  decide

/-- C3 (amended): a request exceeding the configured timeout raises
`OllamaApiClientCommunicationError("Timeout error fetching
information")` rather than a distinct timeout class; every HTTP
response with status ≥ 400 — including 404 with a JSON error body, and
401/403, whose dedicated authentication branch is unreachable because
`raise_for_status` fires inside the request — raises
`OllamaApiClientCommunicationError("Error fetching information")`, as
does any other transport failure. -/
theorem c3_amended_classification (dj : Bool) (s : Nat) (b : String) (d : JsonBody)
    (hs : 400 ≤ s) :
    api_wrapper dj .timeout = .error (.ollamaCommError "Timeout error fetching information")
    ∧ api_wrapper dj .transportError = .error (.ollamaCommError "Error fetching information")
    ∧ api_wrapper dj (.response s b d) = .error (.ollamaCommError "Error fetching information") := by
  refine ⟨rfl, rfl, ?_⟩
  simp [api_wrapper, api_try, hs]

/-- C3 (amended) witness: the classification at concrete inputs. -/
theorem c3_amended_classification_witness :
    api_wrapper true HttpOutcome.timeout
      = .error (.ollamaCommError "Timeout error fetching information")
    ∧ api_wrapper true (.response 404 "\x7b\"error\":\"model not found\"\x7d" .decodable)
      = .error (.ollamaCommError "Error fetching information") :=
  ⟨(c3_amended_classification true 404 "\x7b\"error\":\"model not found\"\x7d" .decodable (by decide)).1,
   (c3_amended_classification true 404 "\x7b\"error\":\"model not found\"\x7d" .decodable (by decide)).2.2⟩

/-- C9: counterexample.  The claim says `heartbeat` returns `false`
without raising on a well-formed response whose body is not the banner,
raising only on transport failure.  On an HTTP 500 response (a
well-formed response, not a transport failure) the wrapper's
`raise_for_status=True` raises and `heartbeat` surfaces a typed
communication error instead of returning `false`. -/
theorem c9_counterexample :
    async_get_heartbeat (.response 500 "oops" .decodable)
      = .error (.ollamaCommError "Error fetching information") := by
  decide

/-- C9 (amended): `heartbeat` returns `true` iff the HTTP status is
non-error (< 400) and the body is exactly "Ollama is running"; on a
non-error-status response with any other body it returns `false`
without raising; on an error-status response, a timeout, or a transport
failure it raises `OllamaApiClientCommunicationError`. -/
theorem c9_amended_heartbeat (s : Nat) (b : String) (d : JsonBody) :
    (async_get_heartbeat (.response s b d) = .ok true ↔ s < 400 ∧ b = "Ollama is running")
    ∧ (s < 400 → b ≠ "Ollama is running" → async_get_heartbeat (.response s b d) = .ok false)
    ∧ (400 ≤ s → async_get_heartbeat (.response s b d)
        = .error (.ollamaCommError "Error fetching information"))
    ∧ async_get_heartbeat .timeout = .error (.ollamaCommError "Timeout error fetching information")
    ∧ async_get_heartbeat .transportError = .error (.ollamaCommError "Error fetching information") := by
  by_cases h4 : 400 ≤ s
  · have hmap : async_get_heartbeat (.response s b d)
        = .error (.ollamaCommError "Error fetching information") := by
      simp [async_get_heartbeat, api_wrapper, api_try, h4, Except.map]
    refine ⟨?_, ?_, fun _ => hmap, rfl, rfl⟩
    · rw [hmap]
      constructor
      · intro h; exact absurd h (by simp)
      · rintro ⟨hlt, _⟩; omega
    · intro hlt; omega
  · have h401 : ¬ (s = 401 ∨ s = 403) := by omega
    have hok : async_get_heartbeat (.response s b d) = .ok (b == "Ollama is running") := by
      simp [async_get_heartbeat, api_wrapper, api_try, h4, h401, Except.map]
    refine ⟨?_, ?_, ?_, rfl, rfl⟩
    · rw [hok]
      constructor
      · intro h
        simp only [Except.ok.injEq, beq_iff_eq] at h
        exact ⟨by omega, h⟩
      · rintro ⟨_, hb⟩; simp [hb]
    · intro _ hb
      rw [hok]
      simp only [Except.ok.injEq]
      exact beq_eq_false_iff_ne.mpr hb
    · intro hge; omega

/-- C9 (amended) witness: heartbeat at concrete inputs. -/
theorem c9_amended_heartbeat_witness :
    (async_get_heartbeat (.response 200 "Ollama is running" .decodable) = .ok true
      ↔ 200 < 400 ∧ "Ollama is running" = "Ollama is running")
    ∧ async_get_heartbeat (.response 200 "nope" .decodable) = .ok false
    ∧ async_get_heartbeat (.response 500 "nope" .decodable)
      = .error (.ollamaCommError "Error fetching information") :=
  ⟨(c9_amended_heartbeat 200 "Ollama is running" .decodable).1,
   (c9_amended_heartbeat 200 "nope" .decodable).2.1 (by decide) (by decide),
   (c9_amended_heartbeat 500 "nope" .decodable).2.2.1 (by decide)⟩

/-- C4: the system prompt is rendered exactly once per session.  Part
one: on the first turn of a new conversation id (no store entry for the
caller-supplied id) the renderer is invoked, and a successful turn
stores the rendered prompt as the session's first message.  Part two:
on every turn whose conversation id is already in the store the
renderer is not invoked, the turn's outcome is independent of what the
renderer would have produced (so a changed exposed-entity snapshot is
irrelevant), and the stored history is only ever extended, never
rewritten. -/
theorem c4_prompt_rendered_once :
    (∀ (history : List (String × List Message)) (input : ConversationInput)
       (newId sp reply : String) (llm : Except Exc String),
      (∀ c, input.conversation_id = some c → storeGet history c = none) →
      ((chatAsyncProcess false none ⟨.speechResp "", none⟩ history input newId
          (.ok sp) llm).renderCalled = true
       ∧ (llm = .ok reply →
           storeGet (chatAsyncProcess false none ⟨.speechResp "", none⟩ history input newId
               (.ok sp) llm).history newId
             = some [⟨"user", sp⟩, ⟨"user", input.text⟩, ⟨"assistant", reply⟩])))
    ∧ (∀ (useB : Bool) (recognize : Option String) (bres : ConversationResult)
         (history : List (String × List Message)) (input : ConversationInput)
         (newId : String) (render render₁ render₂ llm : Except Exc String)
         (cid : String) (stored : List Message),
      input.conversation_id = some cid →
      storeGet history cid = some stored →
      ((chatAsyncProcess useB recognize bres history input newId render llm).renderCalled = false
       ∧ chatAsyncProcess useB recognize bres history input newId render₁ llm
           = chatAsyncProcess useB recognize bres history input newId render₂ llm
       ∧ ∃ tail, storeGet (chatAsyncProcess useB recognize bres history input newId
             render llm).history cid = some (stored ++ tail))) := by
  constructor
  · intro history input newId sp reply llm hnot
    cases hc : input.conversation_id with
    | none =>
        refine ⟨?_, ?_⟩
        · cases llm with
          | ok r => simp [chatAsyncProcess, hc]
          | error e =>
              cases he : e.isApiError <;> cases hh : e.isHomeAssistantError <;>
                simp [chatAsyncProcess, hc, he, hh]
        · intro hllm
          subst hllm
          simp [chatAsyncProcess, hc, storeGet_storeSet_same]
    | some c =>
        have hn := hnot c hc
        refine ⟨?_, ?_⟩
        · cases llm with
          | ok r => simp [chatAsyncProcess, hc, hn]
          | error e =>
              cases he : e.isApiError <;> cases hh : e.isHomeAssistantError <;>
                simp [chatAsyncProcess, hc, hn, he, hh]
        · intro hllm
          subst hllm
          simp [chatAsyncProcess, hc, hn, storeGet_storeSet_same]
  · intro useB recognize bres history input newId render render₁ render₂ llm cid stored hcid hfound
    cases hfb : (if useB = true then callBuiltinAgent input recognize bres else none) with
    | some r =>
        refine ⟨?_, ?_, [], ?_⟩
        · simp [chatAsyncProcess, hfb]
        · simp [chatAsyncProcess, hfb]
        · simp [chatAsyncProcess, hfb, hfound]
    | none =>
        refine ⟨?_, ?_, ?_⟩
        · cases llm with
          | ok r => simp [chatAsyncProcess, hfb, hcid, hfound]
          | error e =>
              cases he : e.isApiError <;> cases hh : e.isHomeAssistantError <;>
                simp [chatAsyncProcess, hfb, hcid, hfound, he, hh]
        · cases llm with
          | ok r => simp [chatAsyncProcess, hfb, hcid, hfound]
          | error e =>
              cases he : e.isApiError <;> cases hh : e.isHomeAssistantError <;>
                simp [chatAsyncProcess, hfb, hcid, hfound, he, hh]
        · cases llm with
          | ok r =>
              refine ⟨[⟨"user", input.text⟩, ⟨"assistant", r⟩], ?_⟩
              simp [chatAsyncProcess, hfb, hcid, hfound, storeGet_storeSet_same]
          | error e =>
              refine ⟨[⟨"user", input.text⟩], ?_⟩
              cases he : e.isApiError <;> cases hh : e.isHomeAssistantError <;>
                simp [chatAsyncProcess, hfb, hcid, hfound, he, hh, storeGet_storeSet_same]

/-- C4 witness: a fresh first turn renders and stores the prompt; a
second turn on the stored id does not render, ignores the renderer
outcome, and extends the stored history. -/
theorem c4_prompt_rendered_once_witness :
    ((chatAsyncProcess false none ⟨.speechResp "", none⟩ [] ⟨"hello", none, "en"⟩ "N"
        (.ok "SYS") (.ok "hi")).renderCalled = true
      ∧ ((Except.ok "hi" : Except Exc String) = .ok "hi" →
          storeGet (chatAsyncProcess false none ⟨.speechResp "", none⟩ [] ⟨"hello", none, "en"⟩ "N"
              (.ok "SYS") (.ok "hi")).history "N"
            = some [⟨"user", "SYS"⟩, ⟨"user", "hello"⟩, ⟨"assistant", "hi"⟩]))
    ∧ ((chatAsyncProcess false none ⟨.speechResp "", none⟩ [("C", [⟨"user", "S"⟩])]
          ⟨"again", some "C", "en"⟩ "N" (.ok "R1") (.ok "r")).renderCalled = false
      ∧ chatAsyncProcess false none ⟨.speechResp "", none⟩ [("C", [⟨"user", "S"⟩])]
          ⟨"again", some "C", "en"⟩ "N" (.ok "R1") (.ok "r")
        = chatAsyncProcess false none ⟨.speechResp "", none⟩ [("C", [⟨"user", "S"⟩])]
          ⟨"again", some "C", "en"⟩ "N" (.ok "R2") (.ok "r")
      ∧ ∃ tail, storeGet (chatAsyncProcess false none ⟨.speechResp "", none⟩ [("C", [⟨"user", "S"⟩])]
          ⟨"again", some "C", "en"⟩ "N" (.ok "R1") (.ok "r")).history "C"
          = some ([⟨"user", "S"⟩] ++ tail)) :=
  ⟨c4_prompt_rendered_once.1 [] ⟨"hello", none, "en"⟩ "N" "SYS" "hi" (.ok "hi")
     (fun _ h => Option.noConfusion h),
   c4_prompt_rendered_once.2 false none ⟨.speechResp "", none⟩ [("C", [⟨"user", "S"⟩])]
     ⟨"again", some "C", "en"⟩ "N" (.ok "R1") (.ok "R1") (.ok "R2") (.ok "r") "C"
     [⟨"user", "S"⟩] rfl (by decide)⟩

/-- C5: counterexample.  After one successful new-conversation turn the
stored session's first entry carries the rendered system prompt with
role "user" — the source builds
`messages = [{"role": "user", "content": system_prompt}]` — not with
role "system" as the claim states. -/
theorem c5_counterexample :
    storeGet (chatAsyncProcess false none ⟨.speechResp "", none⟩ []
        ⟨"hello", none, "en"⟩ "NEWID" (.ok "SYS") (.ok "hi there")).history "NEWID"
      = some [⟨"user", "SYS"⟩, ⟨"user", "hello"⟩, ⟨"assistant", "hi there"⟩]
    ∧ (Message.mk "user" "SYS").role ≠ "system" := by
  decide

/-- C5 (amended): in chat mode a first turn sends the payload
`[{role user, content rendered-prompt}, {role user, content utterance}]`,
and after one successful new-conversation turn the session store holds
exactly 3 messages under the minted id — the user-role prompt message,
the user message and the assistant reply — with the reply as speech and
the minted conversation id returned. -/
theorem c5_amended_first_turn (history : List (String × List Message))
    (input : ConversationInput) (newId sp reply : String)
    (hnot : ∀ c, input.conversation_id = some c → storeGet history c = none) :
    (chatAsyncProcess false none ⟨.speechResp "", none⟩ history input newId
        (.ok sp) (.ok reply)).llmPayload
      = some [⟨"user", sp⟩, ⟨"user", input.text⟩]
    ∧ storeGet (chatAsyncProcess false none ⟨.speechResp "", none⟩ history input newId
        (.ok sp) (.ok reply)).history newId
      = some [⟨"user", sp⟩, ⟨"user", input.text⟩, ⟨"assistant", reply⟩]
    ∧ (storeGet (chatAsyncProcess false none ⟨.speechResp "", none⟩ history input newId
        (.ok sp) (.ok reply)).history newId).map List.length = some 3
    ∧ (chatAsyncProcess false none ⟨.speechResp "", none⟩ history input newId
        (.ok sp) (.ok reply)).result = .ok ⟨.speechResp reply, some newId⟩ := by
  cases hc : input.conversation_id with
  | none => simp [chatAsyncProcess, hc, storeGet_storeSet_same]
  | some c => simp [chatAsyncProcess, hc, hnot c hc, storeGet_storeSet_same]

/-- C5 (amended) witness: the E2E scenario — utterance "hello", rendered
prompt "SYS", model reply "hi there". -/
theorem c5_amended_first_turn_witness :
    (chatAsyncProcess false none ⟨.speechResp "", none⟩ [] ⟨"hello", none, "en"⟩ "NEWID"
        (.ok "SYS") (.ok "hi there")).llmPayload
      = some [⟨"user", "SYS"⟩, ⟨"user", "hello"⟩]
    ∧ storeGet (chatAsyncProcess false none ⟨.speechResp "", none⟩ [] ⟨"hello", none, "en"⟩ "NEWID"
        (.ok "SYS") (.ok "hi there")).history "NEWID"
      = some [⟨"user", "SYS"⟩, ⟨"user", "hello"⟩, ⟨"assistant", "hi there"⟩]
    ∧ (storeGet (chatAsyncProcess false none ⟨.speechResp "", none⟩ [] ⟨"hello", none, "en"⟩ "NEWID"
        (.ok "SYS") (.ok "hi there")).history "NEWID").map List.length = some 3
    ∧ (chatAsyncProcess false none ⟨.speechResp "", none⟩ [] ⟨"hello", none, "en"⟩ "NEWID"
        (.ok "SYS") (.ok "hi there")).result = .ok ⟨.speechResp "hi there", some "NEWID"⟩ :=
  c5_amended_first_turn [] ⟨"hello", none, "en"⟩ "NEWID" "SYS" "hi there"
    (fun _ h => Option.noConfusion h)

/-- C6: session continuity.  A turn whose conversation id is already in
the store sends exactly the stored history plus the new user message to
the model, and a successful turn stores that payload plus the assistant
reply — the stored history grows by exactly 2 messages. -/
theorem c6_session_continuity (history : List (String × List Message))
    (input : ConversationInput) (newId cid reply : String) (stored : List Message)
    (render : Except Exc String)
    (hcid : input.conversation_id = some cid)
    (hfound : storeGet history cid = some stored) :
    (chatAsyncProcess false none ⟨.speechResp "", none⟩ history input newId
        render (.ok reply)).llmPayload
      = some (stored ++ [⟨"user", input.text⟩])
    ∧ storeGet (chatAsyncProcess false none ⟨.speechResp "", none⟩ history input newId
        render (.ok reply)).history cid
      = some (stored ++ [⟨"user", input.text⟩, ⟨"assistant", reply⟩])
    ∧ (storeGet (chatAsyncProcess false none ⟨.speechResp "", none⟩ history input newId
        render (.ok reply)).history cid).map List.length
      = some (stored.length + 2) := by
  refine ⟨?_, ?_, ?_⟩ <;>
    simp [chatAsyncProcess, hcid, hfound, storeGet_storeSet_same]

/-- C6 witness: a second turn on a stored 3-message session sends those
3 messages plus the new user message and stores 5 messages. -/
theorem c6_session_continuity_witness :
    (chatAsyncProcess false none ⟨.speechResp "", none⟩
        [("C", [⟨"user", "SYS"⟩, ⟨"user", "hello"⟩, ⟨"assistant", "hi there"⟩])]
        ⟨"again", some "C", "en"⟩ "N" (.ok "SYS") (.ok "sure")).llmPayload
      = some ([⟨"user", "SYS"⟩, ⟨"user", "hello"⟩, ⟨"assistant", "hi there"⟩] ++ [⟨"user", "again"⟩])
    ∧ storeGet (chatAsyncProcess false none ⟨.speechResp "", none⟩
        [("C", [⟨"user", "SYS"⟩, ⟨"user", "hello"⟩, ⟨"assistant", "hi there"⟩])]
        ⟨"again", some "C", "en"⟩ "N" (.ok "SYS") (.ok "sure")).history "C"
      = some ([⟨"user", "SYS"⟩, ⟨"user", "hello"⟩, ⟨"assistant", "hi there"⟩]
          ++ [⟨"user", "again"⟩, ⟨"assistant", "sure"⟩])
    ∧ (storeGet (chatAsyncProcess false none ⟨.speechResp "", none⟩
        [("C", [⟨"user", "SYS"⟩, ⟨"user", "hello"⟩, ⟨"assistant", "hi there"⟩])]
        ⟨"again", some "C", "en"⟩ "N" (.ok "SYS") (.ok "sure")).history "C").map List.length
      = some (([⟨"user", "SYS"⟩, ⟨"user", "hello"⟩, ⟨"assistant", "hi there"⟩] : List Message).length + 2) :=
  c6_session_continuity
    [("C", [⟨"user", "SYS"⟩, ⟨"user", "hello"⟩, ⟨"assistant", "hi there"⟩])]
    ⟨"again", some "C", "en"⟩ "N" "C" "sure"
    [⟨"user", "SYS"⟩, ⟨"user", "hello"⟩, ⟨"assistant", "hi there"⟩]
    (.ok "SYS") rfl (by decide)

/-- C7: a new-conversation turn whose system-prompt template evaluation
fails with a `TemplateError` returns the localized template diagnostic
under the freshly minted conversation id, leaves the session store
completely unchanged (no session under any id), and never invokes the
Inference Client — in both the chat-mode and the legacy-mode
orchestrator. -/
theorem c7_render_failure_no_session (history : List (String × List Message))
    (lhistory : List (String × LegacySession)) (input : ConversationInput)
    (newId m : String) (llm : Except Exc String) (query : Except Exc LegacyResponse)
    (hchat : ∀ c, input.conversation_id = some c → storeGet history c = none)
    (hleg : ∀ c, input.conversation_id = some c → storeGet lhistory c = none) :
    (chatAsyncProcess false none ⟨.speechResp "", none⟩ history input newId
        (.error (.templateError m)) llm).result
      = .ok ⟨.errorResp "I had a problem with my system prompt, please check the logs for more information.", some newId⟩
    ∧ (chatAsyncProcess false none ⟨.speechResp "", none⟩ history input newId
        (.error (.templateError m)) llm).history = history
    ∧ (chatAsyncProcess false none ⟨.speechResp "", none⟩ history input newId
        (.error (.templateError m)) llm).llmCalled = false
    ∧ (legacyAsyncProcess lhistory input newId (.error (.templateError m)) query).result
      = .ok ⟨.errorResp "I had a problem with my system prompt, please check the logs for more information.", some newId⟩
    ∧ (legacyAsyncProcess lhistory input newId (.error (.templateError m)) query).history = lhistory
    ∧ (legacyAsyncProcess lhistory input newId (.error (.templateError m)) query).llmCalled = false := by
  cases hc : input.conversation_id with
  | none =>
      refine ⟨?_, ?_, ?_, ?_, ?_, ?_⟩ <;>
        simp [chatAsyncProcess, legacyAsyncProcess, hc, Exc.isTemplateError]
  | some c =>
      refine ⟨?_, ?_, ?_, ?_, ?_, ?_⟩ <;>
        simp [chatAsyncProcess, legacyAsyncProcess, hc, hchat c hc, hleg c hc,
          Exc.isTemplateError]

/-- C7 witness: concrete render failure on a fresh conversation. -/
theorem c7_render_failure_no_session_witness :
    (chatAsyncProcess false none ⟨.speechResp "", none⟩ [] ⟨"hello", none, "en"⟩ "N"
        (.error (.templateError "bad template")) (.ok "r")).result
      = .ok ⟨.errorResp "I had a problem with my system prompt, please check the logs for more information.", some "N"⟩
    ∧ (chatAsyncProcess false none ⟨.speechResp "", none⟩ [] ⟨"hello", none, "en"⟩ "N"
        (.error (.templateError "bad template")) (.ok "r")).history = []
    ∧ (chatAsyncProcess false none ⟨.speechResp "", none⟩ [] ⟨"hello", none, "en"⟩ "N"
        (.error (.templateError "bad template")) (.ok "r")).llmCalled = false
    ∧ (legacyAsyncProcess [] ⟨"hello", none, "en"⟩ "N"
        (.error (.templateError "bad template")) (.ok ⟨"r", "ctx"⟩)).result
      = .ok ⟨.errorResp "I had a problem with my system prompt, please check the logs for more information.", some "N"⟩
    ∧ (legacyAsyncProcess [] ⟨"hello", none, "en"⟩ "N"
        (.error (.templateError "bad template")) (.ok ⟨"r", "ctx"⟩)).history = []
    ∧ (legacyAsyncProcess [] ⟨"hello", none, "en"⟩ "N"
        (.error (.templateError "bad template")) (.ok ⟨"r", "ctx"⟩)).llmCalled = false :=
  c7_render_failure_no_session [] [] ⟨"hello", none, "en"⟩ "N" "bad template"
    (.ok "r") (.ok ⟨"r", "ctx"⟩)
    (fun _ h => Option.noConfusion h) (fun _ h => Option.noConfusion h)

/-- C8: with the built-in fallback enabled and the recognizer producing
a confident non-empty speech answer (not the `HassGetState`/"Not any"
fall-through case), `async_process` returns that answer re-tagged with
the caller's original conversation id, the session store is untouched,
and neither the renderer nor the Inference Client is invoked. -/
theorem c8_fallback_short_circuit (recName t : String) (bres : ConversationResult)
    (history : List (String × List Message)) (input : ConversationInput)
    (newId : String) (render llm : Except Exc String)
    (hspeech : bres.response = .speechResp t) (_hne : t ≠ "")
    (hpass : ¬ (recName = "HassGetState" ∧ t = "Not any")) :
    (chatAsyncProcess true (some recName) bres history input newId render llm).result
      = .ok ⟨bres.response, input.conversation_id⟩
    ∧ (chatAsyncProcess true (some recName) bres history input newId render llm).history
      = history
    ∧ (chatAsyncProcess true (some recName) bres history input newId render llm).llmCalled
      = false
    ∧ (chatAsyncProcess true (some recName) bres history input newId render llm).renderCalled
      = false := by
  obtain ⟨resp, ocid⟩ := bres
  simp only at hspeech
  subst hspeech
  have hcall : callBuiltinAgent input (some recName) ⟨.speechResp t, ocid⟩
      = some ⟨.speechResp t, input.conversation_id⟩ := by
    simp [callBuiltinAgent, hpass]
  refine ⟨?_, ?_, ?_, ?_⟩ <;> simp [chatAsyncProcess, hcall]

/-- C8 witness: a confident "Turned on" recognizer answer for a
`HassTurnOn` intent short-circuits the turn. -/
theorem c8_fallback_short_circuit_witness :
    (chatAsyncProcess true (some "HassTurnOn") ⟨.speechResp "Turned on", some "X"⟩
        [("C", [⟨"user", "S"⟩])] ⟨"turn on the light", some "orig", "en"⟩ "N"
        (.ok "SYS") (.ok "r")).result
      = .ok ⟨(ConversationResult.mk (.speechResp "Turned on") (some "X")).response, some "orig"⟩
    ∧ (chatAsyncProcess true (some "HassTurnOn") ⟨.speechResp "Turned on", some "X"⟩
        [("C", [⟨"user", "S"⟩])] ⟨"turn on the light", some "orig", "en"⟩ "N"
        (.ok "SYS") (.ok "r")).history = [("C", [⟨"user", "S"⟩])]
    ∧ (chatAsyncProcess true (some "HassTurnOn") ⟨.speechResp "Turned on", some "X"⟩
        [("C", [⟨"user", "S"⟩])] ⟨"turn on the light", some "orig", "en"⟩ "N"
        (.ok "SYS") (.ok "r")).llmCalled = false
    ∧ (chatAsyncProcess true (some "HassTurnOn") ⟨.speechResp "Turned on", some "X"⟩
        [("C", [⟨"user", "S"⟩])] ⟨"turn on the light", some "orig", "en"⟩ "N"
        (.ok "SYS") (.ok "r")).renderCalled = false :=
  c8_fallback_short_circuit "HassTurnOn" "Turned on" ⟨.speechResp "Turned on", some "X"⟩
    [("C", [⟨"user", "S"⟩])] ⟨"turn on the light", some "orig", "en"⟩ "N"
    (.ok "SYS") (.ok "r") rfl (by decide) (by decide)

/-- Helper for C10: as soon as some state in the list is exposed and has
no entity-registry entry, the grouping loop of `get_exposed` raises
`AttributeError`. -/
theorem get_exposed_go_raises (shouldExpose : String → Bool)
    (registry : String → Option RegistryEntry) :
    ∀ (states : List HAState) (acc : List (String × List ExposedEntity)),
      (∃ s ∈ states, shouldExpose s.entity_id = true ∧ registry s.entity_id = none) →
      get_exposed_go shouldExpose registry states acc
        = .error (.attributeError "NoneType object has no attribute area_id") := by
  intro states
  induction states with
  | nil => rintro acc ⟨s, hs, -⟩; cases hs
  | cons t rest ih =>
      rintro acc ⟨s, hs, hexp, hreg⟩
      rcases List.mem_cons.mp hs with h | h
      · subst h
        simp [get_exposed_go, hexp, hreg]
      · by_cases he : shouldExpose t.entity_id = true
        · cases hr : registry t.entity_id with
          | none => simp [get_exposed_go, he, hr]
          | some entity =>
              simp only [get_exposed_go, he, hr, if_true]
              exact ih _ ⟨s, h, hexp, hreg⟩
        · simp only [get_exposed_go, he, if_false, Bool.false_eq_true]
          exact ih _ ⟨s, h, hexp, hreg⟩

/-- C10: if any exposed entity state has no entity-registry entry,
`get_exposed` raises an unhandled `AttributeError` at
`entity.area_id` (the later `entity.aliases if entity else []` guard is
never reached), and since `async_process` only catches `TemplateError`
around prompt construction, the whole first turn of a new conversation
fails with that untyped error and the Inference Client is never
invoked. -/
theorem c10_missing_registry_entry_raises (states : List HAState)
    (shouldExpose : String → Bool) (registry : String → Option RegistryEntry)
    (s : HAState) (hmem : s ∈ states) (hexp : shouldExpose s.entity_id = true)
    (hreg : registry s.entity_id = none)
    (history : List (String × List Message)) (input : ConversationInput)
    (newId : String) (llm : Except Exc String)
    (hnot : ∀ c, input.conversation_id = some c → storeGet history c = none) :
    get_exposed states shouldExpose registry
      = .error (.attributeError "NoneType object has no attribute area_id")
    ∧ (chatAsyncProcess false none ⟨.speechResp "", none⟩ history input newId
        (.error (.attributeError "NoneType object has no attribute area_id")) llm).result
      = .error (.attributeError "NoneType object has no attribute area_id")
    ∧ (chatAsyncProcess false none ⟨.speechResp "", none⟩ history input newId
        (.error (.attributeError "NoneType object has no attribute area_id")) llm).llmCalled
      = false := by
  refine ⟨?_, ?_, ?_⟩
  · have h := get_exposed_go_raises shouldExpose registry states [] ⟨s, hmem, hexp, hreg⟩
    simp [get_exposed, h, Except.map]
  · cases hc : input.conversation_id with
    | none => simp [chatAsyncProcess, hc, Exc.isTemplateError]
    | some c => simp [chatAsyncProcess, hc, hnot c hc, Exc.isTemplateError]
  · cases hc : input.conversation_id with
    | none => simp [chatAsyncProcess, hc, Exc.isTemplateError]
    | some c => simp [chatAsyncProcess, hc, hnot c hc, Exc.isTemplateError]

/-- C10 witness: one exposed state whose registry lookup is `None`. -/
theorem c10_missing_registry_entry_raises_witness :
    get_exposed [⟨"light.kitchen", "Kitchen", "on"⟩] (fun _ => true) (fun _ => none)
      = .error (.attributeError "NoneType object has no attribute area_id")
    ∧ (chatAsyncProcess false none ⟨.speechResp "", none⟩ [] ⟨"hello", none, "en"⟩ "N"
        (.error (.attributeError "NoneType object has no attribute area_id")) (.ok "r")).result
      = .error (.attributeError "NoneType object has no attribute area_id")
    ∧ (chatAsyncProcess false none ⟨.speechResp "", none⟩ [] ⟨"hello", none, "en"⟩ "N"
        (.error (.attributeError "NoneType object has no attribute area_id")) (.ok "r")).llmCalled
      = false :=
  c10_missing_registry_entry_raises [⟨"light.kitchen", "Kitchen", "on"⟩]
    (fun _ => true) (fun _ => none) ⟨"light.kitchen", "Kitchen", "on"⟩
    (by decide) rfl rfl [] ⟨"hello", none, "en"⟩ "N" (.ok "r")
    (fun _ h => Option.noConfusion h)

end OllamaConv
